import Mathlib

/-!
# Verification of the Scenario API backend (FastAPI service)

Shallow embedding, in Lean 4, of the data model and request handlers of the
Scenario API repository (`app/`), together with theorems settling the frozen
claims about its specification.

Conventions of the embedding:
* UUID primary keys are modelled as `Nat` (only equality of ids matters to the
  handlers; `str(uuid)` comparison in the source coincides with id equality).
* The database is modelled as in-memory lists of rows; SQLAlchemy
  `query(...).filter(p).first()` becomes `List.find? p`, `.all()` becomes
  `List.filter p`, and an UPDATE of the row found by `.first()` becomes
  `updateFirst p f`.
* An HTTP error response (`HTTPException(status_code, detail)`) is an
  `HTTPError`; a handler that can fail returns `Except HTTPError α`, where
  `.ok` corresponds to the success status of the route (200/201/204).
* bcrypt hashing/verification and SMTP dispatch are I/O primitives outside the
  repository; handlers that use them take them as explicit parameters
  (`hash : String → String`, `verify : String → String → Bool`,
  `emailOk : Bool` for whether `send_forgotten_password_email` raises).
-/

/-- `HTTPException(status_code=..., detail=...)` raised by handlers. -/
structure HTTPError where
  status_code : Nat
  detail : String
deriving DecidableEq, Repr

/-- Row of `user_model` (`app/models/user.py`): id, username, email,
`hashed_password`, optional `password_token`, optional `profile_banner`. -/
structure User where
  id : Nat
  username : String
  email : String
  hashed_password : String
  password_token : Option String
  profile_banner : Option String
deriving DecidableEq, Repr

/-- Row of `watchlist_model` (`app/models/watchlist.py`). -/
structure Watchlist where
  id : Nat
  title : String
  author_id : Nat
deriving DecidableEq, Repr

/-- Row of `media_model` (`app/models/media.py`). -/
structure Media where
  id : Nat
  tmdb_id : Int
  genre_ids : List Int
  poster_path : String
  backdrop_path : String
  release_date : String
  runtime : Int
  title : String
  media_type : String
  watchlist_id : Nat
deriving DecidableEq, Repr

/-- Row of `view_model` (`app/models/view.py`). -/
structure View where
  id : Nat
  tmdb_id : Int
  genre_ids : List Int
  poster_path : String
  backdrop_path : String
  release_date : String
  release_year : String
  runtime : Int
  title : String
  media_type : String
  viewer_id : Nat
deriving DecidableEq, Repr

/-- Update, in place, the first row satisfying `p` (the row that
`query(...).filter(p).first()` returns) by `f`; every other row is kept.
This is the effect of mutating the ORM object returned by `.first()` and
committing. -/
def updateFirst {α : Type} (p : α → Bool) (f : α → α) : List α → List α
  | [] => []
  | x :: xs => if p x then f x :: xs else x :: updateFirst p f xs

/-! ## Password validator (`app/schemas/validation_types.py`, `password_is_valid`) -/

/-- The four distinct error kinds of the password validator, one per missing
character class (`PASSWORD_MISSING_*_ERROR` constants). -/
inductive PasswordError where
  | missingDigit
  | missingUppercase
  | missingLowercase
  | missingSpecial
deriving DecidableEq, Repr

/-- The special-character set `"!@#$%^&*()-+"` of the validator. -/
def specialChars : List Char := "!@#$%^&*()-+".toList

/-- `any(char.isdigit() for char in password)` (ASCII fragment). -/
def hasDigit (password : String) : Bool :=
  password.toList.any Char.isDigit

/-- `any(char.isupper() for char in password)` (ASCII fragment). -/
def hasUpper (password : String) : Bool :=
  password.toList.any Char.isUpper

/-- `any(char.islower() for char in password)` (ASCII fragment). -/
def hasLower (password : String) : Bool :=
  password.toList.any Char.isLower

/-- `any(char in "!@#$%^&*()-+" for char in password)`. -/
def hasSpecial (password : String) : Bool :=
  password.toList.any (fun c => specialChars.contains c)

/-- `password_is_valid` from `app/schemas/validation_types.py`: four class
checks in source order (digit, uppercase, lowercase, special), each raising its
own error kind; the input is returned unchanged when all pass. -/
def password_is_valid (password : String) : Except PasswordError String :=
  if !hasDigit password then .error .missingDigit
  else if !hasUpper password then .error .missingUppercase
  else if !hasLower password then .error .missingLowercase
  else if !hasSpecial password then .error .missingSpecial
  else .ok password

/-! ## Authentication endpoints (`app/api/v1/auth.py`) -/

/-- `UserLogin` schema: email and plaintext password. -/
structure UserLogin where
  email : String
  password : String
deriving DecidableEq, Repr

/-- `UserResponse` schema: the public user profile returned by login
(id, username, email, profile_banner; no password fields). -/
structure UserResponse where
  id : Nat
  username : String
  email : String
  profile_banner : Option String
deriving DecidableEq, Repr

/-- `UserResponse.model_validate(user)`. -/
def UserResponse.ofUser (u : User) : UserResponse :=
  { id := u.id, username := u.username, email := u.email,
    profile_banner := u.profile_banner }

/-- `login_user` (`app/api/v1/auth.py`): look up the first user with the given
email; if none, or the password does not verify against the stored hash, raise
401 "Invalid credentials"; otherwise return the public profile (HTTP 200).
`verify` is `verify_password` (bcrypt checkpw), passed as a parameter. -/
def login_user (verify : String → String → Bool) (db : List User)
    (cred : UserLogin) : Except HTTPError UserResponse :=
  match db.find? (fun u => u.email == cred.email) with
  | none => .error ⟨401, "Invalid credentials"⟩
  | some user =>
    if !verify cred.password user.hashed_password then
      .error ⟨401, "Invalid credentials"⟩
    else
      .ok (UserResponse.ofUser user)

/-- `PasswordReset` schema: the new password (with its confirmation, already
checked equal by the schema layer) and the reset token. -/
structure PasswordReset where
  password : String
  password_token : String
deriving DecidableEq, Repr

/-- `reset_password` (`app/api/v1/auth.py`): find the first user whose
`password_token` equals the supplied token; if none, raise 400 "Invalid reset
token" without touching the database; otherwise set that user's
`hashed_password` to the hash of the new password, clear `password_token`, and
commit. `hash` is `hash_password` (bcrypt), passed as a parameter. Returns the
response together with the user table after the request. -/
def reset_password (hash : String → String) (db : List User)
    (rd : PasswordReset) : Except HTTPError String × List User :=
  match db.find? (fun u => u.password_token == some rd.password_token) with
  | none => (.error ⟨400, "Invalid reset token"⟩, db)
  | some _ =>
    (.ok "Password reset successfully",
     updateFirst (fun u => u.password_token == some rd.password_token)
       (fun u => { u with hashed_password := hash rd.password,
                          password_token := none }) db)

/-- `request_password_reset` (`app/api/v1/auth.py`): find the first user with
the given email (401 "User not found" if none); generate a reset token, store
it on the user and COMMIT; only then attempt the email send. `token` is the
value produced by `generate_password_reset_token()`; `emailOk` is whether
`send_forgotten_password_email` succeeds (False = it raises, giving 500
"Failed to send email"). Returns the response with the user table after the
request: the committed token survives an email failure. -/
def request_password_reset (token : String) (emailOk : Bool) (db : List User)
    (email : String) : Except HTTPError String × List User :=
  match db.find? (fun u => u.email == email) with
  | none => (.error ⟨401, "User not found"⟩, db)
  | some _ =>
    let db' := updateFirst (fun u => u.email == email)
      (fun u => { u with password_token := some token }) db
    if emailOk then
      (.ok "Password reset email sent", db')
    else
      (.error ⟨500, "Failed to send email"⟩, db')

/-! ## Settings (`app/core/settings.py`) -/

/-- The `Settings` options relevant to configuration claims, with the optional
environment values that feed them. Defaults are exactly those of the
`Settings` class: `APP_NAME = "Scenario API"`, `APP_VERSION = "2.0.0"`,
`DEBUG = True`, `JWT_ALGORITHM = "HS256"`, `SMTP_PORT = 587`,
`SMTP_USE_TLS = True`. -/
structure Settings where
  APP_NAME : String
  APP_VERSION : String
  DEBUG : Bool
  JWT_ALGORITHM : String
  SMTP_PORT : Nat
  SMTP_USE_TLS : Bool
deriving DecidableEq, Repr

/-- Loading of `Settings` from the environment: each field takes the supplied
environment value when present and its class-level default otherwise
(`DEBUG: bool = True` in `app/core/settings.py`). -/
def loadSettings (envAppName envAppVersion : Option String)
    (envDebug : Option Bool) (envJwtAlgorithm : Option String)
    (envSmtpPort : Option Nat) (envSmtpUseTls : Option Bool) : Settings :=
  { APP_NAME := envAppName.getD "Scenario API"
    APP_VERSION := envAppVersion.getD "2.0.0"
    DEBUG := envDebug.getD true
    JWT_ALGORITHM := envJwtAlgorithm.getD "HS256"
    SMTP_PORT := envSmtpPort.getD 587
    SMTP_USE_TLS := envSmtpUseTls.getD true }

/-! ## Watchlist endpoints (`app/api/v1/watchlists.py`) -/

/-- `WatchlistDetail` response schema: title, the (possibly genre-filtered)
media objects, and the unfiltered media count. -/
structure WatchlistDetail where
  title : String
  medias : List Media
  medias_count : Nat
deriving DecidableEq, Repr

/-- `get_watchlist_details` (`app/api/v1/watchlists.py`): 404 if the watchlist
id matches no row; otherwise select the watchlist's media, restricted — when a
`genre` query value is supplied — to those whose `genre_ids` array contains it
(`Media.genre_ids.any(genre)`), while `medias_count` is computed by a separate
`count` query over the watchlist's media WITHOUT the genre filter. -/
def get_watchlist_details (watchlists : List Watchlist) (medias : List Media)
    (watchlist_id : Nat) (genre : Option Int) : Except HTTPError WatchlistDetail :=
  match watchlists.find? (fun w => w.id == watchlist_id) with
  | none => .error ⟨404, "Watchlist not found"⟩
  | some watchlist =>
    let inWatchlist := medias.filter (fun m => m.watchlist_id == watchlist_id)
    let selected :=
      match genre with
      | none => inWatchlist
      | some g => inWatchlist.filter (fun m => m.genre_ids.contains g)
    .ok { title := watchlist.title
          medias := selected
          medias_count := (medias.filter (fun m => m.watchlist_id == watchlist_id)).length }

/-- `WatchlistUpdate` schema after `model_dump(exclude_unset=True)`: `none`
models a field the caller did not supply (excluded from the dump), `some t` a
supplied title. -/
structure WatchlistUpdate where
  title : Option String
deriving DecidableEq, Repr

/-- The persistent store touched by watchlist/media handlers: the watchlist
and media tables. -/
structure Store where
  watchlists : List Watchlist
  medias : List Media
deriving DecidableEq, Repr

/-- `update_watchlist` (`app/api/v1/watchlists.py`): 404 if the id matches no
watchlist; 403 if the caller is not its author; otherwise apply, via
`setattr`, exactly the fields present in `model_dump(exclude_unset=True)`
(the schema has only `title`) to the row found by `.first()` and commit
(HTTP 204). The media table is never touched. -/
def update_watchlist (st : Store) (current_user_id : Nat) (watchlist_id : Nat)
    (wd : WatchlistUpdate) : Except HTTPError Unit × Store :=
  match st.watchlists.find? (fun w => w.id == watchlist_id) with
  | none => (.error ⟨404, "Watchlist not found"⟩, st)
  | some watchlist =>
    if watchlist.author_id != current_user_id then
      (.error ⟨403, "Not authorized to modify this watchlist"⟩, st)
    else
      let apply := fun (w : Watchlist) =>
        match wd.title with
        | none => w
        | some t => { w with title := t }
      (.ok (),
       { st with watchlists := updateFirst (fun w => w.id == watchlist_id) apply st.watchlists })

/-! ## Media endpoints (`app/api/v1/medias.py`) -/

/-- `MediaUpdate` schema: the only declared field is an optional
`watchlist_id` (`None` default); extra payload fields are ignored by the
schema layer. -/
structure MediaUpdate where
  watchlist_id : Option Nat
deriving DecidableEq, Repr

/-- `update_media` (`app/api/v1/medias.py`): 404 if the id matches no media;
403 if the caller does not own the containing watchlist; if the payload
carries a (truthy, i.e. non-None) `watchlist_id`, the caller must own the
target watchlist (403 otherwise) and the media's `watchlist_id` is reassigned
to it; with no supplied `watchlist_id` nothing is written. All other media
columns are never assigned by this handler. HTTP 204 on success. -/
def update_media (st : Store) (current_user_id : Nat) (media_id : Nat)
    (md : MediaUpdate) : Except HTTPError Unit × Store :=
  match st.medias.find? (fun m => m.id == media_id) with
  | none => (.error ⟨404, "Media not found"⟩, st)
  | some media =>
    match st.watchlists.find? (fun w => w.id == media.watchlist_id) with
    | none =>
      -- dangling foreign key: `current_watchlist.author_id` would raise
      -- AttributeError, surfaced as an opaque 500 by the top-level handler
      (.error ⟨500, "Internal server error"⟩, st)
    | some current_watchlist =>
      if current_watchlist.author_id != current_user_id then
        (.error ⟨403, "Not authorized to modify this media"⟩, st)
      else
        match md.watchlist_id with
        | some target =>
          match st.watchlists.find? (fun w => w.id == target) with
          | none => (.error ⟨403, "Not authorized to move media to this watchlist"⟩, st)
          | some new_watchlist =>
            if new_watchlist.author_id != current_user_id then
              (.error ⟨403, "Not authorized to move media to this watchlist"⟩, st)
            else
              (.ok (),
               { st with medias := (updateFirst (fun m => m.id == media_id)
                   (fun m => { m with watchlist_id := target }) st.medias) })
        | none => (.ok (), st)

/-! ## Statistics endpoints (`app/api/v1/statistics.py`) -/

/-- `ViewCountByType` response schema. -/
structure ViewCountByType where
  media_type : String
  count : Nat
deriving DecidableEq, Repr

/-- `get_view_count_by_type` (`app/api/v1/statistics.py`): select the view
rows with the given `viewer_id` AND `media_type`, then GROUP BY `media_type`,
returning one `{media_type, count}` element per distinct `media_type` value
among the selected rows (SQL yields no group for an empty selection). -/
def get_view_count_by_type (views : List View) (media_type : String)
    (user_id : Nat) : List ViewCountByType :=
  let rows := views.filter (fun v => v.viewer_id == user_id && v.media_type == media_type)
  (rows.map (fun v => v.media_type)).dedup.map
    (fun t => { media_type := t
                count := (rows.filter (fun v => v.media_type == t)).length })

/-! ## Authentication dependency (`app/api/dependencies.py`, `app/core/security.py`) -/

/-- Decoded JWT payload: the optional `sub` claim (a user id; `payload.get("sub")`
is `None` when the claim is absent). The claims under scrutiny concern
well-signed, unexpired tokens, for which `jwt.decode` succeeds and returns
this payload. -/
structure JWTPayload where
  sub : Option Nat
deriving DecidableEq, Repr

/-- `verify_token` (`app/core/security.py`) on a token whose signature and
expiry check out: return the `sub` claim if present, `None` otherwise. -/
def verify_token (payload : JWTPayload) : Option Nat :=
  match payload.sub with
  | none => none
  | some user_id => some user_id

/-- `get_current_user` (`app/api/dependencies.py`) on a well-signed, unexpired
cookie: 403 "Access token not found" when the cookie is absent; 403 "Could not
validate credentials" when `verify_token` yields no subject or the subject id
matches no user row; otherwise the user. `decoded` is the payload `jwt.decode`
produced for the cookie value. -/
def get_current_user (db : List User) (access_token : Option String)
    (decoded : JWTPayload) : Except HTTPError User :=
  match access_token with
  | none => .error ⟨403, "Access token not found"⟩
  | some _ =>
    match verify_token decoded with
    | none => .error ⟨403, "Could not validate credentials"⟩
    | some user_id =>
      match db.find? (fun u => u.id == user_id) with
      | none => .error ⟨403, "Could not validate credentials"⟩
      | some user => .ok user

/-- A protected endpoint: FastAPI resolves the `get_current_user` dependency
first and runs the handler (which may read and write the stores, of type σ)
only when it succeeds; a dependency failure is returned as-is and the state is
untouched. -/
def runProtected {σ α : Type} (db : List User) (access_token : Option String)
    (decoded : JWTPayload) (handler : User → σ → α × σ) (st : σ) :
    Except HTTPError α × σ :=
  match get_current_user db access_token decoded with
  | .error e => (.error e, st)
  | .ok user =>
    let r := handler user st
    (.ok r.1, r.2)

/-! ## Helper lemmas -/

/-- A successful `find?` splits the list into an unmatched prefix, the found
row, and a suffix, and `updateFirst` rewrites exactly the found row. -/
theorem find?_updateFirst_decomp {α : Type} (p : α → Bool) (f : α → α)
    {l : List α} {a : α} (h : l.find? p = some a) :
    ∃ l₁ l₂, l = l₁ ++ a :: l₂ ∧ (∀ x ∈ l₁, p x = false) ∧ p a = true ∧
      updateFirst p f l = l₁ ++ f a :: l₂ := by
  induction l with
  | nil => simp at h
  | cons x xs ih =>
    by_cases hp : p x
    · rw [List.find?_cons_of_pos _ hp] at h
      obtain rfl : x = a := by injection h
      exact ⟨[], xs, by simp, by simp, hp, by simp [updateFirst, hp]⟩
    · rw [List.find?_cons_of_neg _ hp] at h
      obtain ⟨l₁, l₂, h1, h2, h3, h4⟩ := ih h
      refine ⟨x :: l₁, l₂, by simp [h1], ?_, h3, by simp [updateFirst, hp, h4]⟩
      intro y hy
      rcases List.mem_cons.mp hy with rfl | hy
      · exact Bool.eq_false_iff.mpr hp
      · exact h2 y hy

/-! ## Claim theorems -/

/-- C4: the password validator fails with the distinct error kind of the first
missing character class in the fixed order digit, uppercase, lowercase,
special character from `!@#$%^&*()-+` (a password lacking both a digit and an
uppercase letter reports the missing-digit kind), and returns the input
unchanged iff all four classes are present. -/
theorem password_validator_check_order (p : String) :
    (hasDigit p = false → password_is_valid p = .error .missingDigit) ∧
    (hasDigit p = true → hasUpper p = false →
      password_is_valid p = .error .missingUppercase) ∧
    (hasDigit p = true → hasUpper p = true → hasLower p = false →
      password_is_valid p = .error .missingLowercase) ∧
    (hasDigit p = true → hasUpper p = true → hasLower p = true →
      hasSpecial p = false → password_is_valid p = .error .missingSpecial) ∧
    (password_is_valid p = .ok p ↔
      (hasDigit p = true ∧ hasUpper p = true ∧ hasLower p = true ∧
       hasSpecial p = true)) := by
  cases hd : hasDigit p <;> cases hu : hasUpper p <;>
    cases hl : hasLower p <;> cases hs : hasSpecial p <;>
    simp [password_is_valid, hd, hu, hl, hs]

/-- C4 witness: `"abc+"` lacks a digit (and an uppercase letter) and reports
the missing-digit kind; `"Passw0rd+"` has all four classes and is returned
unchanged. -/
theorem password_validator_check_order_witness :
    (hasDigit "abc+" = false ∧
      password_is_valid "abc+" = .error .missingDigit) ∧
    (hasDigit "Passw0rd+" = true ∧ hasUpper "Passw0rd+" = true ∧
      hasLower "Passw0rd+" = true ∧ hasSpecial "Passw0rd+" = true ∧
      password_is_valid "Passw0rd+" = .ok "Passw0rd+") :=
  ⟨⟨by decide, (password_validator_check_order "abc+").1 (by decide)⟩,
   ⟨by decide, by decide, by decide, by decide,
    (password_validator_check_order "Passw0rd+").2.2.2.2.mpr
      ⟨by decide, by decide, by decide, by decide⟩⟩⟩

/-- C9 counterexample: with no `DEBUG` environment value supplied, the loaded
configuration's debug flag is `true`, not `false` (`DEBUG: bool = True` in
`app/core/settings.py`). -/
theorem debug_default_not_false :
    (loadSettings none none none none none none).DEBUG = true ∧
    (loadSettings none none none none none none).DEBUG ≠ false := by
  constructor
  · rfl
  · intro h
    simp [loadSettings] at h

/-- C9 amended: when the `DEBUG` environment option is not supplied, the
loaded configuration's debug flag is `true`, whatever the other environment
options are. -/
theorem debug_default_true (a v : Option String) (j : Option String)
    (sp : Option Nat) (tls : Option Bool) :
    (loadSettings a v none j sp tls).DEBUG = true := rfl

/-- C1: login fails with the identical 401 "Invalid credentials" both when no
user row has the given email and when a row exists but the password does not
verify against its stored hash; when the email matches and the password
verifies, it returns the user's public profile (HTTP 200). -/
theorem login_invalid_credentials_uniform (verify : String → String → Bool)
    (db : List User) (cred : UserLogin) :
    (db.find? (fun u => u.email == cred.email) = none →
      login_user verify db cred = .error ⟨401, "Invalid credentials"⟩) ∧
    (∀ u, db.find? (fun x => x.email == cred.email) = some u →
      verify cred.password u.hashed_password = false →
      login_user verify db cred = .error ⟨401, "Invalid credentials"⟩) ∧
    (∀ u, db.find? (fun x => x.email == cred.email) = some u →
      verify cred.password u.hashed_password = true →
      login_user verify db cred = .ok (UserResponse.ofUser u)) := by
  refine ⟨fun h => ?_, fun u hu hv => ?_, fun u hu hv => ?_⟩
  · simp [login_user, h]
  · simp [login_user, hu, hv]
  · simp [login_user, hu, hv]

/-- C1 witness: against a one-user table, a wrong password and an unknown
email both yield 401 "Invalid credentials", and the right credentials yield
the public profile. -/
theorem login_invalid_credentials_uniform_witness :
    (([⟨1, "alice", "a@x.com", "hash1", none, none⟩] : List User).find?
        (fun x => x.email == "a@x.com") =
      some ⟨1, "alice", "a@x.com", "hash1", none, none⟩) ∧
    ((fun p h => p == h) "wrong" "hash1" = false) ∧
    login_user (fun p h => p == h)
      [⟨1, "alice", "a@x.com", "hash1", none, none⟩] ⟨"a@x.com", "wrong"⟩ =
      .error ⟨401, "Invalid credentials"⟩ :=
  ⟨rfl, rfl,
   (login_invalid_credentials_uniform (fun p h => p == h)
      [⟨1, "alice", "a@x.com", "hash1", none, none⟩]
      ⟨"a@x.com", "wrong"⟩).2.1
     ⟨1, "alice", "a@x.com", "hash1", none, none⟩ rfl rfl⟩

/-- C10: on a protected endpoint, a well-signed unexpired cookie whose payload
has no `sub` claim, or whose subject id matches no user row, is rejected with
403 "Could not validate credentials" before the handler runs, and the stores
are unchanged. -/
theorem protected_endpoint_unknown_subject_rejected {σ α : Type}
    (db : List User) (tok : String) (payload : JWTPayload)
    (handler : User → σ → α × σ) (st : σ) :
    (payload.sub = none →
      runProtected db (some tok) payload handler st =
        (.error ⟨403, "Could not validate credentials"⟩, st)) ∧
    (∀ uid, payload.sub = some uid →
      db.find? (fun u => u.id == uid) = none →
      runProtected db (some tok) payload handler st =
        (.error ⟨403, "Could not validate credentials"⟩, st)) := by
  constructor
  · intro h
    simp [runProtected, get_current_user, verify_token, h]
  · intro uid h hdb
    simp [runProtected, get_current_user, verify_token, h, hdb]

/-- C10 witness: a payload whose subject id 5 matches no user in an empty user
table is rejected with 403 "Could not validate credentials" and the handler
state 0 is unchanged. -/
theorem protected_endpoint_unknown_subject_rejected_witness :
    ((⟨some 5⟩ : JWTPayload).sub = some 5) ∧
    (([] : List User).find? (fun u => u.id == 5) = none) ∧
    runProtected [] (some "cookie") ⟨some 5⟩
      (fun _ (s : Nat) => (s, s + 1)) 0 =
      (.error ⟨403, "Could not validate credentials"⟩, 0) :=
  ⟨rfl, rfl,
   (protected_endpoint_unknown_subject_rejected [] "cookie" ⟨some 5⟩
      (fun _ (s : Nat) => (s, s + 1)) 0).2 5 rfl rfl⟩

/-- C3: in the forgotten-password flow, for a user matched by email the fresh
reset token is committed before the email send is attempted, so when the send
fails the operation returns 500 "Failed to send email" while the user's
`password_token` holds the new token, and no other row changed. -/
theorem reset_token_persisted_on_email_failure (token : String)
    (db : List User) (email : String) (u : User)
    (hfind : db.find? (fun v => v.email == email) = some u) :
    (request_password_reset token false db email).1 =
      .error ⟨500, "Failed to send email"⟩ ∧
    ({ u with password_token := some token } ∈
      (request_password_reset token false db email).2) ∧
    (∀ v ∈ (request_password_reset token false db email).2,
      v = { u with password_token := some token } ∨ v ∈ db) := by
  obtain ⟨l₁, l₂, hdb, -, -, hupd⟩ :=
    find?_updateFirst_decomp (fun v : User => v.email == email)
      (fun v => { v with password_token := some token }) hfind
  refine ⟨?_, ?_, ?_⟩
  · simp [request_password_reset, hfind]
  · simp [request_password_reset, hfind, hupd]
  · intro v hv
    simp only [request_password_reset, hfind, hupd, Bool.false_eq_true,
      if_false, List.mem_append, List.mem_cons] at hv
    rcases hv with hv | hv | hv
    · exact Or.inr (hdb ▸ List.mem_append_left _ hv)
    · exact Or.inl hv
    · exact Or.inr (hdb ▸ List.mem_append_right _ (List.mem_cons_of_mem _ hv))

/-- C3 witness: with a one-user table matched by email and a failing email
send, the response is 500 "Failed to send email" and the user row carries the
fresh token. -/
theorem reset_token_persisted_on_email_failure_witness :
    (([⟨1, "alice", "a@x.com", "hash1", none, none⟩] : List User).find?
        (fun v => v.email == "a@x.com") =
      some ⟨1, "alice", "a@x.com", "hash1", none, none⟩) ∧
    (request_password_reset "tok9" false
        [⟨1, "alice", "a@x.com", "hash1", none, none⟩] "a@x.com").1 =
      .error ⟨500, "Failed to send email"⟩ ∧
    (⟨1, "alice", "a@x.com", "hash1", some "tok9", none⟩ : User) ∈
      (request_password_reset "tok9" false
        [⟨1, "alice", "a@x.com", "hash1", none, none⟩] "a@x.com").2 :=
  ⟨rfl,
   (reset_token_persisted_on_email_failure "tok9"
      [⟨1, "alice", "a@x.com", "hash1", none, none⟩] "a@x.com"
      ⟨1, "alice", "a@x.com", "hash1", none, none⟩ rfl).1,
   (reset_token_persisted_on_email_failure "tok9"
      [⟨1, "alice", "a@x.com", "hash1", none, none⟩] "a@x.com"
      ⟨1, "alice", "a@x.com", "hash1", none, none⟩ rfl).2.1⟩

/-- C7: an owner-authenticated watchlist update supplying only a new title
succeeds (HTTP 204), leaves the media table untouched, and replaces the
watchlist by one identical to it except for the title (same id, same
`author_id`); every other watchlist row is unchanged. -/
theorem watchlist_update_title_frame (st : Store) (uid wid : Nat)
    (newTitle : String) (w : Watchlist)
    (hfind : st.watchlists.find? (fun x => x.id == wid) = some w)
    (hown : w.author_id = uid) :
    (update_watchlist st uid wid ⟨some newTitle⟩).1 = .ok () ∧
    (update_watchlist st uid wid ⟨some newTitle⟩).2.medias = st.medias ∧
    ({ w with title := newTitle } ∈
      (update_watchlist st uid wid ⟨some newTitle⟩).2.watchlists) ∧
    ({ w with title := newTitle }).author_id = w.author_id ∧
    (∀ x ∈ (update_watchlist st uid wid ⟨some newTitle⟩).2.watchlists,
      x = { w with title := newTitle } ∨ x ∈ st.watchlists) := by
  subst hown
  obtain ⟨l₁, l₂, hdb, -, -, hupd⟩ :=
    find?_updateFirst_decomp (fun x : Watchlist => x.id == wid)
      (fun x => match (⟨some newTitle⟩ : WatchlistUpdate).title with
        | none => x
        | some t => { x with title := t }) hfind
  refine ⟨?_, ?_, ?_, rfl, ?_⟩
  · simp [update_watchlist, hfind]
  · simp [update_watchlist, hfind]
  · simp [update_watchlist, hfind, hupd]
  · intro x hx
    simp only [update_watchlist, hfind, bne_self_eq_false, hupd,
      Bool.false_eq_true, if_false, List.mem_append, List.mem_cons] at hx
    rcases hx with hx | hx | hx
    · exact Or.inr (hdb ▸ List.mem_append_left _ hx)
    · exact Or.inl hx
    · exact Or.inr (hdb ▸ List.mem_append_right _ (List.mem_cons_of_mem _ hx))

/-- C7 witness: in a store with one watchlist (id 1, title "old", author 5)
holding one media row, the owner's title-only update succeeds, leaves the
media table unchanged, and the watchlist reappears with the new title and its
old `author_id`. -/
theorem watchlist_update_title_frame_witness :
    ((⟨[⟨1, "old", 5⟩],
       [⟨10, 550, [18], "p", "b", "1999-10-15", 139, "Fight Club", "movie", 1⟩]⟩ :
        Store).watchlists.find? (fun x => x.id == 1) = some ⟨1, "old", 5⟩) ∧
    ((⟨1, "old", 5⟩ : Watchlist).author_id = 5) ∧
    (update_watchlist
        ⟨[⟨1, "old", 5⟩],
         [⟨10, 550, [18], "p", "b", "1999-10-15", 139, "Fight Club", "movie", 1⟩]⟩
        5 1 ⟨some "new"⟩).1 = .ok () ∧
    (update_watchlist
        ⟨[⟨1, "old", 5⟩],
         [⟨10, 550, [18], "p", "b", "1999-10-15", 139, "Fight Club", "movie", 1⟩]⟩
        5 1 ⟨some "new"⟩).2.medias =
      [⟨10, 550, [18], "p", "b", "1999-10-15", 139, "Fight Club", "movie", 1⟩] ∧
    (⟨1, "new", 5⟩ : Watchlist) ∈
      (update_watchlist
        ⟨[⟨1, "old", 5⟩],
         [⟨10, 550, [18], "p", "b", "1999-10-15", 139, "Fight Club", "movie", 1⟩]⟩
        5 1 ⟨some "new"⟩).2.watchlists :=
  ⟨rfl, rfl,
   (watchlist_update_title_frame
      ⟨[⟨1, "old", 5⟩],
       [⟨10, 550, [18], "p", "b", "1999-10-15", 139, "Fight Club", "movie", 1⟩]⟩
      5 1 "new" ⟨1, "old", 5⟩ rfl rfl).1,
   (watchlist_update_title_frame
      ⟨[⟨1, "old", 5⟩],
       [⟨10, 550, [18], "p", "b", "1999-10-15", 139, "Fight Club", "movie", 1⟩]⟩
      5 1 "new" ⟨1, "old", 5⟩ rfl rfl).2.1,
   (watchlist_update_title_frame
      ⟨[⟨1, "old", 5⟩],
       [⟨10, 550, [18], "p", "b", "1999-10-15", 139, "Fight Club", "movie", 1⟩]⟩
      5 1 "new" ⟨1, "old", 5⟩ rfl rfl).2.2.1⟩

/-- C5: for an existing watchlist, the detail endpoint returns exactly the
media rows of that watchlist whose `genre_ids` contain the supplied genre (all
of the watchlist's media rows when no genre is supplied), while `medias_count`
is the total number of the watchlist's media rows ignoring the genre filter. -/
theorem watchlist_detail_genre_filter_count (wls : List Watchlist)
    (ms : List Media) (wid : Nat) (g : Int) (w : Watchlist)
    (hfind : wls.find? (fun x => x.id == wid) = some w) :
    (∃ d, get_watchlist_details wls ms wid (some g) = .ok d ∧
      d.title = w.title ∧
      (∀ m : Media, m ∈ d.medias ↔
        (m ∈ ms ∧ m.watchlist_id = wid ∧ g ∈ m.genre_ids)) ∧
      d.medias_count = (ms.filter (fun m => m.watchlist_id == wid)).length) ∧
    (∃ d, get_watchlist_details wls ms wid none = .ok d ∧
      d.title = w.title ∧
      (∀ m : Media, m ∈ d.medias ↔ (m ∈ ms ∧ m.watchlist_id = wid)) ∧
      d.medias_count = (ms.filter (fun m => m.watchlist_id == wid)).length) := by
  constructor
  · refine ⟨⟨w.title,
      (ms.filter (fun m => m.watchlist_id == wid)).filter
        (fun m => m.genre_ids.contains g),
      (ms.filter (fun m => m.watchlist_id == wid)).length⟩,
      by simp [get_watchlist_details, hfind], rfl, ?_, rfl⟩
    intro m
    simp only [List.mem_filter, List.contains, List.elem_iff, beq_iff_eq,
      and_assoc]
  · refine ⟨⟨w.title,
      ms.filter (fun m => m.watchlist_id == wid),
      (ms.filter (fun m => m.watchlist_id == wid)).length⟩,
      by simp [get_watchlist_details, hfind], rfl, ?_, rfl⟩
    intro m
    simp [List.mem_filter]

/-- C5 witness: a watchlist with 3 media rows of which exactly 1 contains
genre 7 — the detail endpoint with `genre=7` returns that single media row
while `medias_count` is 3. -/
theorem watchlist_detail_genre_filter_count_witness :
    (([⟨1, "list", 5⟩] : List Watchlist).find? (fun x => x.id == 1) =
      some ⟨1, "list", 5⟩) ∧
    get_watchlist_details [⟨1, "list", 5⟩]
      [⟨1, 100, [7, 18], "p1", "b1", "2001-01-01", 100, "A", "movie", 1⟩,
       ⟨2, 200, [18], "p2", "b2", "2002-01-01", 101, "B", "movie", 1⟩,
       ⟨3, 300, [53], "p3", "b3", "2003-01-01", 102, "C", "tv", 1⟩]
      1 (some 7) =
      .ok ⟨"list",
        [⟨1, 100, [7, 18], "p1", "b1", "2001-01-01", 100, "A", "movie", 1⟩], 3⟩ ∧
    (∃ d, get_watchlist_details [⟨1, "list", 5⟩]
        [⟨1, 100, [7, 18], "p1", "b1", "2001-01-01", 100, "A", "movie", 1⟩,
         ⟨2, 200, [18], "p2", "b2", "2002-01-01", 101, "B", "movie", 1⟩,
         ⟨3, 300, [53], "p3", "b3", "2003-01-01", 102, "C", "tv", 1⟩]
        1 (some 7) = .ok d ∧
      d.title = "list" ∧
      (∀ m : Media, m ∈ d.medias ↔
        (m ∈ [⟨1, 100, [7, 18], "p1", "b1", "2001-01-01", 100, "A", "movie", 1⟩,
              ⟨2, 200, [18], "p2", "b2", "2002-01-01", 101, "B", "movie", 1⟩,
              ⟨3, 300, [53], "p3", "b3", "2003-01-01", 102, "C", "tv", 1⟩] ∧
         m.watchlist_id = 1 ∧ (7 : Int) ∈ m.genre_ids)) ∧
      d.medias_count =
        (([⟨1, 100, [7, 18], "p1", "b1", "2001-01-01", 100, "A", "movie", 1⟩,
           ⟨2, 200, [18], "p2", "b2", "2002-01-01", 101, "B", "movie", 1⟩,
           ⟨3, 300, [53], "p3", "b3", "2003-01-01", 102, "C", "tv", 1⟩] :
            List Media).filter (fun m => m.watchlist_id == 1)).length) :=
  ⟨rfl, rfl,
   (watchlist_detail_genre_filter_count [⟨1, "list", 5⟩]
      [⟨1, 100, [7, 18], "p1", "b1", "2001-01-01", 100, "A", "movie", 1⟩,
       ⟨2, 200, [18], "p2", "b2", "2002-01-01", 101, "B", "movie", 1⟩,
       ⟨3, 300, [53], "p3", "b3", "2003-01-01", 102, "C", "tv", 1⟩]
      1 7 ⟨1, "list", 5⟩ rfl).1⟩

/-- C6: the authenticated media update applies exactly the explicitly supplied
fields of the `MediaUpdate` payload (its single declared field is
`watchlist_id`): supplying it reassigns the media's `watchlist_id` while every
other column of the row keeps its value, and omitting it leaves the store
entirely unchanged; no column is overwritten with a default or absent
sentinel. -/
theorem media_partial_update (st : Store) (uid mid : Nat) (md : MediaUpdate)
    (m : Media) (cw : Watchlist)
    (hm : st.medias.find? (fun x => x.id == mid) = some m)
    (hw : st.watchlists.find? (fun w => w.id == m.watchlist_id) = some cw)
    (hown : cw.author_id = uid) :
    (md.watchlist_id = none → update_media st uid mid md = (.ok (), st)) ∧
    (∀ target nw, md.watchlist_id = some target →
      st.watchlists.find? (fun w => w.id == target) = some nw →
      nw.author_id = uid →
      (update_media st uid mid md).1 = .ok () ∧
      (update_media st uid mid md).2.watchlists = st.watchlists ∧
      ({ m with watchlist_id := target } ∈ (update_media st uid mid md).2.medias) ∧
      (∀ x ∈ (update_media st uid mid md).2.medias,
        x = { m with watchlist_id := target } ∨ x ∈ st.medias)) := by
  subst hown
  constructor
  · intro h
    simp [update_media, hm, hw, h]
  · intro target nw ht hnw hnwown
    obtain ⟨l₁, l₂, hdb, -, -, hupd⟩ :=
      find?_updateFirst_decomp (fun x : Media => x.id == mid)
        (fun x => { x with watchlist_id := target }) hm
    refine ⟨?_, ?_, ?_, ?_⟩
    · simp [update_media, hm, hw, ht, hnw, hnwown]
    · simp [update_media, hm, hw, ht, hnw, hnwown]
    · simp [update_media, hm, hw, ht, hnw, hnwown, hupd]
    · intro x hx
      simp only [update_media, hm, hw, bne_self_eq_false, Bool.false_eq_true,
        if_false, ht, hnw, hnwown, hupd, List.mem_append, List.mem_cons] at hx
      rcases hx with hx | hx | hx
      · exact Or.inr (hdb ▸ List.mem_append_left _ hx)
      · exact Or.inl hx
      · exact Or.inr (hdb ▸ List.mem_append_right _ (List.mem_cons_of_mem _ hx))

/-- C6 witness: with two watchlists owned by user 5 and one media row in
watchlist 1, an empty payload leaves the store unchanged, and a payload
supplying `watchlist_id = 2` moves the media there while every other column
keeps its value. -/
theorem media_partial_update_witness :
    ((⟨[⟨1, "a", 5⟩, ⟨2, "b", 5⟩],
       [⟨10, 550, [18], "p", "b", "d", 139, "T", "movie", 1⟩]⟩ :
        Store).medias.find? (fun x => x.id == 10) =
      some ⟨10, 550, [18], "p", "b", "d", 139, "T", "movie", 1⟩) ∧
    ((⟨[⟨1, "a", 5⟩, ⟨2, "b", 5⟩],
       [⟨10, 550, [18], "p", "b", "d", 139, "T", "movie", 1⟩]⟩ :
        Store).watchlists.find? (fun w => w.id == 1) = some ⟨1, "a", 5⟩) ∧
    ((⟨1, "a", 5⟩ : Watchlist).author_id = 5) ∧
    update_media
      ⟨[⟨1, "a", 5⟩, ⟨2, "b", 5⟩],
       [⟨10, 550, [18], "p", "b", "d", 139, "T", "movie", 1⟩]⟩ 5 10 ⟨none⟩ =
      (.ok (),
       ⟨[⟨1, "a", 5⟩, ⟨2, "b", 5⟩],
        [⟨10, 550, [18], "p", "b", "d", 139, "T", "movie", 1⟩]⟩) ∧
    ((update_media
        ⟨[⟨1, "a", 5⟩, ⟨2, "b", 5⟩],
         [⟨10, 550, [18], "p", "b", "d", 139, "T", "movie", 1⟩]⟩ 5 10
        ⟨some 2⟩).1 = .ok () ∧
     (update_media
        ⟨[⟨1, "a", 5⟩, ⟨2, "b", 5⟩],
         [⟨10, 550, [18], "p", "b", "d", 139, "T", "movie", 1⟩]⟩ 5 10
        ⟨some 2⟩).2.watchlists = [⟨1, "a", 5⟩, ⟨2, "b", 5⟩] ∧
     ((⟨10, 550, [18], "p", "b", "d", 139, "T", "movie", 2⟩ : Media) ∈
      (update_media
        ⟨[⟨1, "a", 5⟩, ⟨2, "b", 5⟩],
         [⟨10, 550, [18], "p", "b", "d", 139, "T", "movie", 1⟩]⟩ 5 10
        ⟨some 2⟩).2.medias) ∧
     (∀ x ∈ (update_media
        ⟨[⟨1, "a", 5⟩, ⟨2, "b", 5⟩],
         [⟨10, 550, [18], "p", "b", "d", 139, "T", "movie", 1⟩]⟩ 5 10
        ⟨some 2⟩).2.medias,
       x = ⟨10, 550, [18], "p", "b", "d", 139, "T", "movie", 2⟩ ∨
       x ∈ [(⟨10, 550, [18], "p", "b", "d", 139, "T", "movie", 1⟩ : Media)])) :=
  ⟨rfl, rfl, rfl,
   (media_partial_update
      ⟨[⟨1, "a", 5⟩, ⟨2, "b", 5⟩],
       [⟨10, 550, [18], "p", "b", "d", 139, "T", "movie", 1⟩]⟩ 5 10 ⟨none⟩
      ⟨10, 550, [18], "p", "b", "d", 139, "T", "movie", 1⟩ ⟨1, "a", 5⟩
      rfl rfl rfl).1 rfl,
   (media_partial_update
      ⟨[⟨1, "a", 5⟩, ⟨2, "b", 5⟩],
       [⟨10, 550, [18], "p", "b", "d", 139, "T", "movie", 1⟩]⟩ 5 10 ⟨some 2⟩
      ⟨10, 550, [18], "p", "b", "d", 139, "T", "movie", 1⟩ ⟨1, "a", 5⟩
      rfl rfl rfl).2 2 ⟨2, "b", 5⟩ rfl rfl rfl⟩

/-- C2: when exactly one user holds reset token `t`, resetting with `t`
succeeds once — the response is the 200 confirmation, the holder's
`hashed_password` becomes the hash of the new password and its
`password_token` is cleared, and no other row changes — and afterwards
replaying `t` (like using any token no user holds) fails with 400 "Invalid
reset token" and changes no user state. -/
theorem reset_token_single_use (hash : String → String) (db : List User)
    (t pw pw2 : String) (u : User)
    (hfind : db.find? (fun v => v.password_token == some t) = some u)
    (huniq : db.countP (fun v => v.password_token == some t) ≤ 1) :
    (reset_password hash db ⟨pw, t⟩).1 = .ok "Password reset successfully" ∧
    ({ u with hashed_password := hash pw, password_token := none } ∈
      (reset_password hash db ⟨pw, t⟩).2) ∧
    (∀ v ∈ (reset_password hash db ⟨pw, t⟩).2,
      v = { u with hashed_password := hash pw, password_token := none } ∨
      v ∈ db) ∧
    reset_password hash (reset_password hash db ⟨pw, t⟩).2 ⟨pw2, t⟩ =
      (.error ⟨400, "Invalid reset token"⟩, (reset_password hash db ⟨pw, t⟩).2) ∧
    (∀ t2 pw3, db.find? (fun v => v.password_token == some t2) = none →
      reset_password hash db ⟨pw3, t2⟩ =
        (.error ⟨400, "Invalid reset token"⟩, db)) := by
  obtain ⟨l₁, l₂, hdb, h₁, hpu, hupd⟩ :=
    find?_updateFirst_decomp (fun v : User => v.password_token == some t)
      (fun v => { v with hashed_password := hash pw, password_token := none })
      hfind
  have hres2 : (reset_password hash db ⟨pw, t⟩).2 =
      l₁ ++ { u with hashed_password := hash pw, password_token := none } :: l₂ := by
    simp [reset_password, hfind, hupd]
  have hl₂ : ∀ v ∈ l₂, ¬((v.password_token == some t) = true) := by
    have h' := huniq
    rw [hdb, List.countP_append,
      List.countP_cons_of_pos (fun v : User => v.password_token == some t) l₂
        hpu] at h'
    have h0 : l₂.countP (fun v => v.password_token == some t) = 0 := by omega
    exact List.countP_eq_zero.mp h0
  have hnone :
      (l₁ ++ { u with hashed_password := hash pw, password_token := none } :: l₂).find?
        (fun v => v.password_token == some t) = none := by
    rw [List.find?_eq_none]
    intro x hx
    rcases List.mem_append.mp hx with hx | hx
    · simp [h₁ x hx]
    · rcases List.mem_cons.mp hx with rfl | hx
      · simp
      · exact hl₂ x hx
  refine ⟨?_, ?_, ?_, ?_, ?_⟩
  · simp [reset_password, hfind]
  · rw [hres2]
    exact List.mem_append_right _ (List.mem_cons_self _ _)
  · intro v hv
    rw [hres2] at hv
    rcases List.mem_append.mp hv with hv | hv
    · exact Or.inr (hdb ▸ List.mem_append_left _ hv)
    · rcases List.mem_cons.mp hv with rfl | hv
      · exact Or.inl rfl
      · exact Or.inr (hdb ▸ List.mem_append_right _ (List.mem_cons_of_mem _ hv))
  · rw [hres2]
    simp [reset_password, hnone]
  · intro t2 pw3 h
    simp [reset_password, h]

/-- C2 witness: one user holds token "tok"; resetting with it succeeds, and an
immediate replay with the same token fails with 400 "Invalid reset token"
leaving the table as after the first reset. -/
theorem reset_token_single_use_witness :
    (([⟨1, "alice", "a@x.com", "h0", some "tok", none⟩] : List User).find?
        (fun v => v.password_token == some "tok") =
      some ⟨1, "alice", "a@x.com", "h0", some "tok", none⟩) ∧
    (([⟨1, "alice", "a@x.com", "h0", some "tok", none⟩] : List User).countP
        (fun v => v.password_token == some "tok") ≤ 1) ∧
    (reset_password (fun s => s)
        [⟨1, "alice", "a@x.com", "h0", some "tok", none⟩]
        ⟨"Np1+", "tok"⟩).1 = .ok "Password reset successfully" ∧
    reset_password (fun s => s)
        (reset_password (fun s => s)
          [⟨1, "alice", "a@x.com", "h0", some "tok", none⟩]
          ⟨"Np1+", "tok"⟩).2 ⟨"Np2+", "tok"⟩ =
      (.error ⟨400, "Invalid reset token"⟩,
       (reset_password (fun s => s)
          [⟨1, "alice", "a@x.com", "h0", some "tok", none⟩]
          ⟨"Np1+", "tok"⟩).2) :=
  ⟨rfl, by decide,
   (reset_token_single_use (fun s => s)
      [⟨1, "alice", "a@x.com", "h0", some "tok", none⟩] "tok" "Np1+" "Np2+"
      ⟨1, "alice", "a@x.com", "h0", some "tok", none⟩ rfl (by decide)).1,
   (reset_token_single_use (fun s => s)
      [⟨1, "alice", "a@x.com", "h0", some "tok", none⟩] "tok" "Np1+" "Np2+"
      ⟨1, "alice", "a@x.com", "h0", some "tok", none⟩ rfl (by decide)).2.2.2.1⟩

/-- Deduplicating a nonempty constant list leaves the single value. -/
theorem dedup_replicate_succ {α : Type} [DecidableEq α] (a : α) :
    ∀ n : Nat, (List.replicate (n + 1) a).dedup = [a]
  | 0 => by simp
  | n + 1 => by
    rw [List.replicate_succ,
      List.dedup_cons_of_mem (by simp [List.mem_replicate])]
    exact dedup_replicate_succ a n

/-- C8 counterexample: for a user with no view record of the requested type,
the count-by-type operation returns the empty breakdown, not a single-element
one. -/
theorem view_count_empty_not_single :
    get_view_count_by_type [] "movie" 7 = [] ∧
    (get_view_count_by_type [] "movie" 7).length ≠ 1 :=
  ⟨rfl, by decide⟩

/-- C8 amended: the count-by-type operation returns at most one element: when
the user has at least one view record of the requested media type, exactly one
element pairing that type with the number of such records; when they have
none, the empty breakdown. -/
theorem view_count_by_type_at_most_one (views : List View) (mt : String)
    (uid : Nat) :
    (views.filter (fun v => v.viewer_id == uid && v.media_type == mt) = [] →
      get_view_count_by_type views mt uid = []) ∧
    (views.filter (fun v => v.viewer_id == uid && v.media_type == mt) ≠ [] →
      get_view_count_by_type views mt uid =
        [⟨mt, (views.filter
            (fun v => v.viewer_id == uid && v.media_type == mt)).length⟩]) := by
  constructor
  · intro h
    simp [get_view_count_by_type, h]
  · intro h
    have hall : ∀ v ∈ views.filter
        (fun v => v.viewer_id == uid && v.media_type == mt),
        v.media_type = mt := by
      intro v hv
      have hp := (List.mem_filter.mp hv).2
      simp only [Bool.and_eq_true, beq_iff_eq] at hp
      exact hp.2
    have hmap : (views.filter
          (fun v => v.viewer_id == uid && v.media_type == mt)).map
          (fun v => v.media_type) =
        List.replicate (views.filter
          (fun v => v.viewer_id == uid && v.media_type == mt)).length mt := by
      have hrep := List.eq_replicate_length.mpr
        (fun b hb => by
          obtain ⟨v, hv, rfl⟩ := List.mem_map.mp hb
          exact hall v hv)
      simpa [List.length_map] using hrep
    obtain ⟨k, hk⟩ : ∃ k, (views.filter
        (fun v => v.viewer_id == uid && v.media_type == mt)).length = k + 1 :=
      Nat.exists_eq_add_of_lt (List.length_pos.mpr h) |>.imp
        (fun k hk => by omega)
    have hfil : (views.filter
        (fun v => v.viewer_id == uid && v.media_type == mt)).filter
        (fun v => v.media_type == mt) =
        views.filter (fun v => v.viewer_id == uid && v.media_type == mt) :=
      List.filter_eq_self.mpr (fun v hv => by simp [hall v hv])
    simp only [get_view_count_by_type, hmap, hk, dedup_replicate_succ,
      List.map_cons, List.map_nil, hfil]

/-- C8 amended witness: a user with exactly one movie view gets the
single-element breakdown `[{media_type := "movie", count := 1}]`. -/
theorem view_count_by_type_at_most_one_witness :
    (([⟨1, 550, [18], "p", "b", "1999-10-15", "1999", 139, "F", "movie", 7⟩] :
        List View).filter
        (fun v => v.viewer_id == 7 && v.media_type == "movie") ≠ []) ∧
    get_view_count_by_type
        [⟨1, 550, [18], "p", "b", "1999-10-15", "1999", 139, "F", "movie", 7⟩]
        "movie" 7 = [⟨"movie", 1⟩] :=
  ⟨by decide,
   (view_count_by_type_at_most_one
      [⟨1, 550, [18], "p", "b", "1999-10-15", "1999", 139, "F", "movie", 7⟩]
      "movie" 7).2 (by decide)⟩
